import Mathlib

/-!
# Verification of the pyxdf XDF importer (`Python/xdf.py`, version 1.14.0)

A shallow embedding of the XDF importer `load_xdf` and its helper functions
`_read_varlen_int`, `_scan_forward`, `_clock_sync`, `_jitter_removal` and
`_robust_fit` from `Python/xdf.py`.

Modelling conventions:
* Bytes are `Nat` values (0..255); a byte stream is a `List Nat` consumed from
  the front, or (for the boundary scanner, which seeks) a function `Nat → Nat`
  from file offsets to bytes together with a file length.
* Python/numpy floating point values are modelled as exact rationals `ℚ`.
  All arithmetic performed by the relevant code paths (sums, products,
  quotients, medians, comparisons) is carried out exactly; the machine epsilon
  `np.finfo(float).eps` is the constant `2⁻⁵²`.
* numpy arrays are `List ℚ`; a 2-column design matrix is a `List (ℚ × ℚ)` of
  rows; a sample matrix is a list of rows.
* Python exceptions (`struct.error`, `RuntimeError`, `KeyError`,
  `AttributeError`, `numpy.linalg.LinAlgError`, `IndexError`) are modelled
  with `Except String`; an uncaught exception is an `Except.error`.
* `np.linalg.cholesky` on the 2×2 symmetric positive-semidefinite matrix
  `AᵀA` succeeds exactly when the matrix is positive definite
  (`a₁₁ > 0` and `det > 0`), else raises `LinAlgError`; the pair of
  triangular solves against the Cholesky factors is, in exact arithmetic,
  the unique solution of the 2×2 linear system, which we compute directly.
-/

namespace Xdf

/-! ## Byte primitives (`_read_varlen_int`, struct unpacking)

`bytesToNatLE` interprets a byte list (first byte least significant) as an
unsigned little-endian integer, as `struct.unpack` does for formats
`B`, `<I`, `<Q`. -/

def bytesToNatLE (bs : List ℕ) : ℕ :=
  bs.foldr (fun b acc => b + 256 * acc) 0

/-- Model of `_read_varlen_int` (xdf.py lines 380-390) on a byte stream.
Reads one byte `nbytes`; if it is 1, 4 or 8, reads that many further bytes
and returns their unsigned little-endian value together with the rest of the
stream.  A `struct.unpack` on fewer bytes than requested raises
`struct.error`; a length byte outside 1/4/8 raises `RuntimeError`. -/
def readVarlenInt (bs : List ℕ) : Except String (ℕ × List ℕ) :=
  match bs with
  | [] => .error "struct.error: unpack requires a buffer of 1 bytes"
  | nbytes :: rest =>
    if nbytes = 1 then
      if 1 ≤ rest.length then .ok (bytesToNatLE (rest.take 1), rest.drop 1)
      else .error "struct.error: unpack requires a buffer of 1 bytes"
    else if nbytes = 4 then
      if 4 ≤ rest.length then .ok (bytesToNatLE (rest.take 4), rest.drop 4)
      else .error "struct.error: unpack requires a buffer of 4 bytes"
    else if nbytes = 8 then
      if 8 ≤ rest.length then .ok (bytesToNatLE (rest.take 8), rest.drop 8)
      else .error "struct.error: unpack requires a buffer of 8 bytes"
    else .error "invalid variable-length integer encountered."

/-- `readVarlenInt` succeeded. -/
def varlenOk (bs : List ℕ) : Bool :=
  match readVarlenInt bs with
  | .ok _ => true
  | .error _ => false

/-! ## Sample timestamp delta decoding

Model of the per-sample timestamp logic of the Samples-chunk decoder
(xdf.py lines 274-297).  Each sample carries either an explicit timestamp
(`has_stamp` byte nonzero, modelled `some s`) or none (`has_stamp` zero,
modelled `none`), in which case the timestamp is deduced as
`last_timestamp + tdiff`; in both cases `last_timestamp` is updated to the
timestamp just produced. -/

def decodeStamps (last tdiff : ℚ) : List (Option ℚ) → List ℚ
  | [] => []
  | some s :: rest => s :: decodeStamps s tdiff rest
  | none :: rest => (last + tdiff) :: decodeStamps (last + tdiff) tdiff rest

/-! ## Per-stream data model

`ChanFormat` is the declared channel format; `TimeSeries` is the concatenated
sample container of a stream, either a numeric matrix (list of sample rows) or
a list of string rows.  `StreamState` is the per-stream temporary data
(`StreamData` in xdf.py) after the concatenation step of lines 330-345:
the derived constants plus the dense timestamp vector, the sample container
and the accumulated clock-offset measurement lists. -/

inductive ChanFormat where
  | int8 | int16 | int32 | int64 | float32 | double64 | str
deriving DecidableEq

inductive TimeSeries where
  | num (rows : List (List ℚ))
  | strs (rows : List (List String))
deriving DecidableEq

/-- Number of rows (samples) of a sample container. -/
def TimeSeries.rowCount : TimeSeries → ℕ
  | .num rows => rows.length
  | .strs rows => rows.length

structure StreamState where
  nchns : ℕ
  srate : ℤ
  fmt : ChanFormat
  time_stamps : List ℚ
  time_series : TimeSeries
  clock_times : List ℚ
  clock_values : List ℚ
deriving DecidableEq

/-- `self.tdiff = 1.0/self.srate if self.srate > 0 else 0.0` (xdf.py line 191). -/
def tdiffOf (srate : ℤ) : ℚ :=
  if 0 < srate then 1 / (srate : ℚ) else 0

/-! ## List arithmetic helpers mirroring numpy operations -/

def sumL (l : List ℚ) : ℚ := l.foldl (· + ·) 0

/-- `np.diff`: successive differences. -/
def diffsOf (l : List ℚ) : List ℚ :=
  List.zipWith (fun a b => b - a) l l.tail

/-! ## Jitter removal (`_jitter_removal`, xdf.py lines 508-547) -/

/-- Indices `i` with `diffs[i] > thr`, i.e. `np.where(breaks_at)[0]` for
`breaks_at = diffs > thr` (xdf.py lines 516-519). -/
def breakIndices (diffs : List ℚ) (thr : ℚ) : List ℕ :=
  (List.range diffs.length).filter (fun i => thr < diffs.getD i 0)

/-- The segment ranges of xdf.py lines 518-523:
`np.reshape(np.hstack((0, indices, indices + 1, nsamples - 1)), (2, -1)).T`.
For break indices `bs = [b₁, …, bₖ]` the flat array is
`[0, b₁, …, bₖ, b₁+1, …, bₖ+1, n-1]`; reshaping it to two rows makes row 0
`0 :: bs` and row 1 `bs.map (·+1) ++ [n-1]`, and transposing pairs the two
rows columnwise.  Without breaks the single range is `(0, n-1)`. -/
def segmentRanges (n : ℕ) (bs : List ℕ) : List (ℕ × ℕ) :=
  if bs = [] then [(0, n - 1)]
  else List.zip (0 :: bs) (bs.map (· + 1) ++ [n - 1])

/-- Exact least-squares fit `y ≈ a + m·x` (the unique minimiser computed by
`np.linalg.lstsq` for the full-rank two-column design `[1, x]`),
returned as `(a, m)`. -/
def lstsqFit (xs ys : List ℚ) : ℚ × ℚ :=
  let n : ℚ := xs.length
  let sx := sumL xs
  let sy := sumL ys
  let sxx := sumL (xs.map (fun x => x * x))
  let sxy := sumL (List.zipWith (· * ·) xs ys)
  let m := (n * sxy - sx * sy) / (n * sxx - sx * sx)
  ((sy - m * sx) / n, m)

/-- Loop state of the segment loop of `_jitter_removal` (lines 526-544).
`frozen` records that `num_samples` and `effective_srate` have been rebound
to ndarrays (lines 541-542), after which a further `.append` on them raises
`AttributeError`.  `esrAttr` is the `stream.effective_srate` attribute,
`none` while it has never been assigned. -/
structure JitterAcc where
  stamps : List ℚ
  num_samples : List ℚ
  effective_srate : List ℚ
  frozen : Bool
  esrAttr : Option ℚ
deriving DecidableEq

/-- One iteration of the segment loop of `_jitter_removal` (lines 528-544).
A segment `(b, e)` is processed only when `e > b`.  Processing appends to
`num_samples` (an `AttributeError` if it has become an ndarray), computes the
segment's duration and rate from the current timestamps, least-squares-fits
the timestamps at indices `b..e` against those indices, **reassigns the whole
timestamp vector** to the fitted values on `b..e` (line 540:
`stream.time_stamps = mapping[0] + mapping[1]*indices`), converts both
accumulator lists to ndarrays and assigns
`stream.effective_srate = np.sum(effective_srate/num_samples/np.sum(num_samples))`
(line 543), an elementwise quotient `Σᵢ rᵢ/(nᵢ·Σⱼnⱼ)`. -/
def jitterSegment (acc : JitterAcc) (r : ℕ × ℕ) : Except String JitterAcc :=
  if r.1 < r.2 then
    if acc.frozen then
      .error "AttributeError: ndarray object has no attribute append"
    else
      let len : ℕ := r.2 - r.1 + 1
      let ns := acc.num_samples ++ [(len : ℚ)]
      let duration := acc.stamps.getD r.2 0 - acc.stamps.getD r.1 0
      let esr := acc.effective_srate ++ [(len : ℚ) / duration]
      let idxs := (List.range len).map (fun k => r.1 + k)
      let fit := lstsqFit (idxs.map (fun i => (i : ℚ)))
        (idxs.map (fun i => acc.stamps.getD i 0))
      let stamps := idxs.map (fun i => fit.1 + fit.2 * (i : ℚ))
      let total := sumL ns
      let x := sumL (List.zipWith (fun e nn => e / nn / total) esr ns)
      .ok ⟨stamps, ns, esr, true, some x⟩
  else .ok acc

/-- Model of `_jitter_removal` on a single stream (xdf.py lines 511-546):
returns the stream's new timestamp vector together with the value of its
`effective_srate` attribute (`none` when the attribute was never assigned,
which happens when every segment is skipped). -/
def jitterRemovalStream (break_threshold_seconds break_threshold_samples : ℚ)
    (st : StreamState) : Except String (List ℚ × Option ℚ) :=
  let n := st.time_stamps.length
  if 0 < n ∧ 0 < st.srate then
    let diffs := diffsOf st.time_stamps
    let thr := max break_threshold_seconds (break_threshold_samples * tdiffOf st.srate)
    let ranges := segmentRanges n (breakIndices diffs thr)
    (ranges.foldlM jitterSegment ⟨st.time_stamps, [], [], false, none⟩).map
      (fun acc => (acc.stamps, acc.esrAttr))
  else .ok (st.time_stamps, some 0)

/-- Model of the attribute read `tmp.effective_srate` performed when
assembling the returned streams (xdf.py line 372): reading a never-assigned
attribute raises `AttributeError`. -/
def getEffectiveSrate (esr : Option ℚ) : Except String ℚ :=
  match esr with
  | some v => .ok v
  | none => .error "AttributeError: StreamData object has no attribute effective_srate"

/-- The naive effective rate of xdf.py lines 365-367, used when
`dejitter_timestamps` is false: `len(ts)/(ts[-1] - ts[0])`; indexing an
empty vector raises `IndexError`. -/
def naiveEffectiveSrate (ts : List ℚ) : Except String ℚ :=
  match ts with
  | [] => .error "IndexError: index -1 is out of bounds for axis 0 with size 0"
  | t :: rest => .ok (((t :: rest).length : ℚ) / ((t :: rest).getLastD 0 - t))

/-! ## Clock synchronization (`_clock_sync`, xdf.py lines 421-505)

Exact-rational model of the per-stream body of `_clock_sync` (the code runs
it for every stream with `len(stream.time_stamps) > 0`).  `np.finfo(float).eps`
is the machine epsilon `2⁻⁵²`. -/

def epsFloat : ℚ := 1 / 2 ^ 52

def insertSorted (x : ℚ) : List ℚ → List ℚ
  | [] => [x]
  | y :: ys => if x ≤ y then x :: y :: ys else y :: insertSorted x ys

def sortQ : List ℚ → List ℚ
  | [] => []
  | x :: xs => insertSorted x (sortQ xs)

/-- `np.median`: middle element of the sorted data for odd length, mean of
the two middle elements for even length.  (For the empty array numpy yields
`nan` with a warning; the model returns 0.  The code only takes the median of
an empty array when `clock_times` has fewer than two entries, and then the
resulting value feeds exclusively into elementwise comparisons over empty
arrays, so the value is never semantically used.) -/
def medianQ (l : List ℚ) : ℚ :=
  let s := sortQ l
  let n := s.length
  if n % 2 = 1 then s.getD (n / 2) 0
  else (s.getD (n / 2 - 1) 0 + s.getD (n / 2) 0) / 2

/-- Glitch marks for a difference series `d` (xdf.py lines 449-467):
`cond1 | (cond2 & cond3)` where `cond1 = d < 0`,
`cond2 = (d - median d)/(MAD + eps) > thr_stds` and
`cond3 = d - median d > thr_abs`, with `MAD = median |d - median d|`. -/
def glitchMarks (d : List ℚ) (thr_stds thr_abs : ℚ) : List Bool :=
  let med := medianQ d
  let mad := medianQ (d.map (fun x => |x - med|)) + epsFloat
  d.map (fun x =>
    decide (x < 0) || (decide (thr_stds < (x - med) / mad) && decide (thr_abs < x - med)))

/-- `resets_at = time_glitch & value_glitch` (line 468), with
`time_diff = np.diff(clock_times)` and `value_diff = np.abs(np.diff(clock_values))`. -/
def resetsAt (ct cv : List ℚ) (stds secs off_stds off_secs : ℚ) : List Bool :=
  let td := diffsOf ct
  let vd := (diffsOf cv).map (fun x => |x|)
  List.zipWith (· && ·) (glitchMarks td stds secs) (glitchMarks vd off_stds off_secs)

/-- The `[begin, end]` index ranges between resets (xdf.py lines 470-481).
Without reset handling, or without any reset, the single range is
`(0, len(clock_times) - 1)` (an empty `clock_times` yields `(0, -1)`, hence
the `ℤ` bounds).  With resets at indices `idxs`, line 475 builds the flat
array `[0, idxs…, (idxs+1)…, len(resets_at) - 1]` and lines 476-477 reshape
it to two rows and transpose, pairing `0 :: idxs` with
`idxs.map (·+1) ++ [len(resets_at) - 1]` columnwise. -/
def clockRanges (handle : Bool) (ct cv : List ℚ) (stds secs off_stds off_secs : ℚ) :
    List (ℤ × ℤ) :=
  if handle then
    let rs := resetsAt ct cv stds secs off_stds off_secs
    let idxs := (List.range rs.length).filter (fun i => rs.getD i false)
    if idxs = [] then [(0, (ct.length : ℤ) - 1)]
    else List.zip ((0 : ℤ) :: idxs.map (fun i => (i : ℤ)))
                  (idxs.map (fun i => (i : ℤ) + 1) ++ [(rs.length : ℤ) - 1])
  else [(0, (ct.length : ℤ) - 1)]

/-- Python slice `l[b : e+1]` for `0 ≤ b` (the inclusive range `[b, e]`). -/
def sliceIncl (l : List ℚ) (b e : ℤ) : List ℚ :=
  (l.drop b.toNat).take (e + 1 - b).toNat

/-! ### Robust fit (`_robust_fit`, xdf.py lines 551-582) -/

/-- `Aᵀv` for the two-column design `A` given by `rows`. -/
def dotCols (rows : List (ℚ × ℚ)) (v : List ℚ) : ℚ × ℚ :=
  (sumL (List.zipWith (fun r w => r.1 * w) rows v),
   sumL (List.zipWith (fun r w => r.2 * w) rows v))

/-- `A·x` for the two-column design `A` given by `rows`. -/
def matVec (rows : List (ℚ × ℚ)) (x : ℚ × ℚ) : List ℚ :=
  rows.map (fun r => r.1 * x.1 + r.2 * x.2)

/-- Exact solution of the 2×2 symmetric system `[[s11,s12],[s12,s22]]·x = b`
(what the two triangular solves against the Cholesky factors compute). -/
def solve2 (s11 s12 s22 b1 b2 : ℚ) : ℚ × ℚ :=
  let det := s11 * s22 - s12 * s12
  ((s22 * b1 - s12 * b2) / det, (s11 * b2 - s12 * b1) / det)

structure AdmmState where
  x : ℚ × ℚ
  z : List ℚ
  u : List ℚ
deriving DecidableEq

/-- One ADMM iteration of `_robust_fit` (xdf.py lines 576-581):
`x = (AᵀA)⁻¹(Aᵀy + Aᵀ(z - u))`; `d = A·x - y + u`;
`tmp = max(0, 1 - (1 + 1/rho)/|d|)` elementwise, where numpy's
`(1 + 1/rho)/0 = inf` makes `tmp = 0` at `|d| = 0`;
`z = rho/(1+rho)·d + 1/(1+rho)·tmp·d`; `u = d - z`. -/
def admmStep (rows : List (ℚ × ℚ)) (y : List ℚ) (rho s11 s12 s22 : ℚ)
    (aty : ℚ × ℚ) (st : AdmmState) : AdmmState :=
  let w := dotCols rows (List.zipWith (· - ·) st.z st.u)
  let x := solve2 s11 s12 s22 (aty.1 + w.1) (aty.2 + w.2)
  let d := List.zipWith (· + ·) (List.zipWith (· - ·) (matVec rows x) y) st.u
  let tmp := d.map (fun di => if |di| = 0 then 0 else max 0 (1 - (1 + 1 / rho) / |di|))
  let z := List.zipWith (fun di ti => rho / (1 + rho) * di + 1 / (1 + rho) * ti * di) d tmp
  let u := List.zipWith (· - ·) d z
  ⟨x, z, u⟩

/-- Model of `_robust_fit(A, y, rho=1, iters=1000)`: forms `AᵀA`, attempts its
Cholesky factorisation — `np.linalg.cholesky` raises `LinAlgError` unless the
matrix is positive definite — then runs `iters` ADMM iterations from
`z = u = 0` and returns `x = (a, b)`.  (`x` is also initialised to zeros but
is rebound before first use, so its initial value is irrelevant.) -/
def robustFit (rows : List (ℚ × ℚ)) (y : List ℚ) (rho : ℚ) (iters : ℕ) :
    Except String (ℚ × ℚ) :=
  let s11 := sumL (rows.map (fun r => r.1 * r.1))
  let s12 := sumL (rows.map (fun r => r.1 * r.2))
  let s22 := sumL (rows.map (fun r => r.2 * r.2))
  if 0 < s11 ∧ 0 < s11 * s22 - s12 * s12 then
    let aty := dotCols rows y
    let init : AdmmState := ⟨(0, 0), List.replicate y.length 0, List.replicate y.length 0⟩
    .ok ((admmStep rows y rho s11 s12 s22 aty)^[iters] init).x
  else .error "LinAlgError: Matrix is not positive definite"

/-- Design matrix of xdf.py lines 487-489 for segment `r`:
rows `(1, t)/winsor_threshold` over the inclusive slice of `clock_times`. -/
def buildA (ct : List ℚ) (w : ℚ) (r : ℤ × ℤ) : List (ℚ × ℚ) :=
  (sliceIncl ct r.1 r.2).map (fun t => (1 / w, t / w))

/-- Target vector of xdf.py lines 490-491: the inclusive slice of
`clock_values` divided by `winsor_threshold`. -/
def buildY (cv : List ℚ) (w : ℚ) (r : ℤ × ℤ) : List ℚ :=
  (sliceIncl cv r.1 r.2).map (fun v => v / w)

/-- Clock-offset mapping for one range (xdf.py lines 485-495): a robust fit
when the range has distinct endpoints, else `(clock_values[begin], 0)`. -/
def segCoef (ct cv : List ℚ) (w : ℚ) (r : ℤ × ℤ) : Except String (ℚ × ℚ) :=
  if r.1 ≠ r.2 then robustFit (buildA ct w r) (buildY cv w r) 1 1000
  else .ok (cv.getD r.1.toNat 0, 0)

/-- The `coef` accumulation loop of xdf.py lines 484-495; an exception raised
for any range propagates. -/
def segCoefs (ct cv : List ℚ) (w : ℚ) : List (ℤ × ℤ) → Except String (List (ℚ × ℚ))
  | [] => .ok []
  | r :: rs =>
    match segCoef ct cv w r with
    | .error e => .error e
    | .ok c =>
      match segCoefs ct cv w rs with
      | .error e => .error e
      | .ok cs => .ok (c :: cs)

/-- numpy slice assignment `ts[b:e] += a + m*ts[b:e]` (xdf.py lines 502-504):
exactly the indices of the half-open range `[b, e)` are updated. -/
def sliceAddUpdate (a m : ℚ) (b e : ℤ) (ts : List ℚ) : List ℚ :=
  (List.range ts.length).map (fun (j : ℕ) =>
    if b ≤ (j : ℤ) ∧ (j : ℤ) < e then ts.getD j 0 + (a + m * ts.getD j 0) else ts.getD j 0)

/-- The multi-segment correction loop of xdf.py lines 501-504. -/
def applyCoefs (coefs : List (ℚ × ℚ)) (ranges : List (ℤ × ℤ)) (ts : List ℚ) : List ℚ :=
  (List.zip coefs ranges).foldl (fun acc p => sliceAddUpdate p.1.1 p.1.2 p.2.1 p.2.2 acc) ts

/-- Modelled from the spec (section 4.4 step 6): apply a segment's affine
correction `t ← t + a + b·t` to the **inclusive** index range `[b, e]`. -/
def sliceAddUpdateIncl (a m : ℚ) (b e : ℤ) (ts : List ℚ) : List ℚ :=
  (List.range ts.length).map (fun (j : ℕ) =>
    if b ≤ (j : ℤ) ∧ (j : ℤ) ≤ e then ts.getD j 0 + (a + m * ts.getD j 0) else ts.getD j 0)

/-- Modelled from the spec (section 4.4 step 6): the multi-segment correction
loop with inclusive ranges, the behaviour the specification prescribes. -/
def applyCoefsSpec (coefs : List (ℚ × ℚ)) (ranges : List (ℤ × ℤ)) (ts : List ℚ) : List ℚ :=
  (List.zip coefs ranges).foldl (fun acc p => sliceAddUpdateIncl p.1.1 p.1.2 p.2.1 p.2.2 acc) ts

/-- Model of the per-stream body of `_clock_sync` (xdf.py lines 428-504):
for a stream with at least one sample, detect resets, compute one affine
mapping per range (propagating any `LinAlgError` from the robust fit), and
apply the corrections — to all timestamps for a single range, else by the
half-open slice loop.  Streams without samples are left untouched. -/
def clockSyncStream (handle_clock_resets : Bool)
    (reset_threshold_stds reset_threshold_seconds reset_threshold_offset_stds
      reset_threshold_offset_seconds winsor_threshold : ℚ)
    (st : StreamState) : Except String (List ℚ) :=
  if 0 < st.time_stamps.length then
    let ranges := clockRanges handle_clock_resets st.clock_times st.clock_values
      reset_threshold_stds reset_threshold_seconds reset_threshold_offset_stds
      reset_threshold_offset_seconds
    match segCoefs st.clock_times st.clock_values winsor_threshold ranges with
    | .error e => .error e
    | .ok coefs =>
      if ranges.length = 1 then
        .ok (st.time_stamps.map (fun t =>
          t + (coefs.getD 0 (0, 0)).1 + (coefs.getD 0 (0, 0)).2 * t))
      else .ok (applyCoefs coefs ranges st.time_stamps)
  else .ok st.time_stamps

/-! ## Boundary scanner (`_scan_forward`, xdf.py lines 402-418)

The scanner seeks, so the input is modelled as a function from file offsets
to bytes plus a file length.  `f.read(blocklen)` at position `pos` returns
`min blocklen (flen - pos)` bytes. -/

def blocklen : ℕ := 2 ^ 20

/-- The 16-byte boundary sentinel (xdf.py lines 406-407). -/
def boundarySig : List ℕ :=
  [0x43, 0xA5, 0x46, 0xDC, 0xCB, 0xF5, 0x41, 0x0F,
   0xB3, 0x0E, 0xD5, 0x46, 0x73, 0x83, 0xCB, 0xE4]

/-- All 16 sentinel bytes are present starting at offset `p`. -/
def matchesAt (file : ℕ → ℕ) (p : ℕ) : Bool :=
  (List.range 16).all (fun j => decide (file (p + j) = boundarySig.getD j 0))

/-- `block.find(signature)` for the block of `L` bytes starting at `base`:
the least offset `o` with `o + 16 ≤ L` at which the whole sentinel occurs,
or `none`. -/
def blockFind (file : ℕ → ℕ) (base L : ℕ) : Option ℕ :=
  (List.range (L - 15)).find? (fun o => matchesAt file (base + o))

/-- Model of `_scan_forward`: repeatedly read a block of up to `blocklen`
bytes **with no overlap between successive blocks**; on a match at block
offset `o`, seek to `curpos + o + 15` and report success; on a short block
with no match, stop at end of file reporting failure.  Returns the final
file position and whether a boundary was found. -/
def scanForward (file : ℕ → ℕ) (flen : ℕ) (pos : ℕ) : ℕ × Bool :=
  match blockFind file pos (min blocklen (flen - pos)) with
  | some o => (pos + o + 15, true)
  | none =>
    if min blocklen (flen - pos) < blocklen then (pos + min blocklen (flen - pos), false)
    else scanForward file flen (pos + blocklen)
termination_by flen - pos
decreasing_by
  have h1 : min blocklen (flen - pos) ≤ flen - pos := Nat.min_le_right _ _
  have h2 : 0 < blocklen := by norm_num [blocklen]
  omega

/-! ## Finalization (concatenation across chunks, xdf.py lines 330-345) -/

/-- Per-stream buffers as accumulated by the chunk loop: the derived header
constants plus the ordered lists of timestamp chunks and sample chunks
(numeric chunks are matrices, string chunks are lists of string rows; for a
given stream only the container matching `fmt` is ever populated). -/
structure StreamChunks where
  nchns : ℕ
  fmt : ChanFormat
  stamp_chunks : List (List ℚ)
  num_chunks : List (List (List ℚ))
  str_chunks : List (List (List String))
deriving DecidableEq

/-- Model of xdf.py lines 330-345: for a stream with a non-empty chunk list,
concatenate the timestamp chunks (`np.concatenate`) and the sample chunks
(`np.concatenate` row-wise for numeric, `itertools.chain` for string).  For a
stream without any chunks, produce `np.zeros((0,))` timestamps and an empty
sample container: `[]` for string format, and `np.zeros((stream.nchns, 0))` —
a matrix of `nchns` rows and 0 columns — for numeric formats. -/
def finalizeStream (b : StreamChunks) : List ℚ × TimeSeries :=
  if b.stamp_chunks ≠ [] then
    (b.stamp_chunks.flatten,
     if b.fmt = .str then .strs b.str_chunks.flatten else .num b.num_chunks.flatten)
  else
    ([], if b.fmt = .str then .strs [] else .num (List.replicate b.nchns []))

/-! ## Chunk dispatch (`load_xdf` main loop, xdf.py lines 221-328)

The dispatch structure of the decode loop, modelled over a list of chunks
whose payloads are already parsed.  The essential control-flow fact embedded
here is which handlers run inside a `try`/`except`: the whole body of the
Samples handler (tag 3, lines 263-315) is guarded — any exception, e.g. the
`KeyError` from `temp[s]` for a stream id with no preceding StreamHeader, is
caught, `_scan_forward` is invoked and the loop continues — whereas the
ClockOffset handler (tag 4, lines 321-325) and the StreamFooter handler
(tag 6, lines 317-320) perform the same unguarded lookup, whose `KeyError`
propagates out of `load_xdf`. -/

structure DecodeBuf where
  nchns : ℕ
  srate : ℤ
  fmt : ChanFormat
  last_timestamp : ℚ
  stamp_chunks : List (List ℚ)
  series_chunks : List (List (List ℚ))
  clock_times : List ℚ
  clock_values : List ℚ
deriving DecidableEq

/-- A parsed chunk.  A Samples payload is the per-sample list of
(optional explicit timestamp, channel values). -/
inductive Chunk where
  | fileHeader
  | streamHeader (sid : ℕ) (nchns : ℕ) (srate : ℤ) (fmt : ChanFormat)
  | samples (sid : ℕ) (payload : List (Option ℚ × List ℚ))
  | clockOffset (sid : ℕ) (collection_time offset_value : ℚ)
  | streamFooter (sid : ℕ)
  | boundary
  | other

/-- `temp[s]` lookup in the dict of per-stream buffers. -/
def lookupBuf (temp : List (ℕ × DecodeBuf)) (sid : ℕ) : Option DecodeBuf :=
  (temp.find? (fun p => decide (p.1 = sid))).map (fun p => p.2)

/-- `temp[s] = b` assignment. -/
def setBuf (temp : List (ℕ × DecodeBuf)) (sid : ℕ) (b : DecodeBuf) :
    List (ℕ × DecodeBuf) :=
  if (temp.find? (fun p => decide (p.1 = sid))).isSome then
    temp.map (fun p => if p.1 = sid then (sid, b) else p)
  else temp ++ [(sid, b)]

/-- `_scan_forward` at chunk granularity: skip everything up to and past the
next boundary chunk; with no further boundary, reach end of file. -/
def scanToBoundary : List Chunk → List Chunk
  | [] => []
  | Chunk.boundary :: rest => rest
  | _ :: rest => scanToBoundary rest

theorem scanToBoundary_length_le (l : List Chunk) : (scanToBoundary l).length ≤ l.length := by
  induction l with
  | nil => simp [scanToBoundary]
  | cons c rest ih =>
    cases c <;> simp [scanToBoundary] <;> omega

/-- The chunk-dispatch loop of `load_xdf` (lines 221-328).  Returns the final
dict of per-stream buffers, or the message of an uncaught exception (which
aborts `load_xdf`, so the caller receives no data at all). -/
def processChunks (temp : List (ℕ × DecodeBuf)) :
    List Chunk → Except String (List (ℕ × DecodeBuf))
  | [] => .ok temp
  | Chunk.fileHeader :: rest => processChunks temp rest
  | Chunk.streamHeader sid nchns srate fmt :: rest =>
    processChunks (setBuf temp sid ⟨nchns, srate, fmt, 0, [], [], [], []⟩) rest
  | Chunk.samples sid payload :: rest =>
    (match lookupBuf temp sid with
     | none => processChunks temp (scanToBoundary rest)
     | some b =>
       let stamps := decodeStamps b.last_timestamp (tdiffOf b.srate) (payload.map Prod.fst)
       let values := payload.map Prod.snd
       let b2 : DecodeBuf :=
         { b with last_timestamp := stamps.getLastD b.last_timestamp,
                  stamp_chunks := b.stamp_chunks ++ [stamps],
                  series_chunks := b.series_chunks ++ [values] }
       processChunks (setBuf temp sid b2) rest)
  | Chunk.clockOffset sid t v :: rest =>
    (match lookupBuf temp sid with
     | none => .error "KeyError"
     | some b =>
       processChunks (setBuf temp sid
         { b with clock_times := b.clock_times ++ [t],
                  clock_values := b.clock_values ++ [v] }) rest)
  | Chunk.streamFooter sid :: rest =>
    (match lookupBuf temp sid with
     | none => .error "KeyError"
     | some _ => processChunks temp rest)
  | Chunk.boundary :: rest => processChunks temp rest
  | Chunk.other :: rest => processChunks temp rest
termination_by l => l.length
decreasing_by
  all_goals simp
  · exact Nat.lt_succ_of_le (scanToBoundary_length_le _)

/-! # Concrete inputs used by the claims -/

/-- A regular stream (nominal rate 1000 Hz) whose four timestamps contain a
data break of 1.999 s between samples 1 and 2, so `_jitter_removal` finds the
break index 1 and more than one segment. -/
def breakStream : StreamState :=
  ⟨1, 1000, .double64, [0, 1/1000, 2, 2 + 1/1000], .num [[0], [0], [0], [0]], [], []⟩

/-- A regular stream (nominal rate 2 Hz) with three evenly spaced samples
over one second: a single segment with `n = 3`, `duration = 1`, rate `r = 3`. -/
def singleSegmentStream : StreamState :=
  ⟨1, 2, .double64, [0, 1/2, 1], .num [[0], [0], [0]], [], []⟩

/-- A stream with one sample and an empty list of clock-offset measurements. -/
def noOffsetsStream : StreamState :=
  ⟨1, 0, .double64, [0], .num [[0]], [], []⟩

/-- A regular stream (nominal rate 2 Hz) with exactly one sample. -/
def oneSampleStream : StreamState :=
  ⟨1, 2, .double64, [5], .num [[0]], [], []⟩

/-- A numeric stream header with 2 channels whose stream never received a
Samples chunk. -/
def emptyStreamChunks : StreamChunks :=
  ⟨2, .double64, [], [], []⟩

/-- Clock measurement times (and, equal by design, clock offset values) with
a clock reset between indices 2 and 3: the jump of 98 s in both the
measurement times and the offsets triggers `time_glitch & value_glitch` at
difference index 2.  All points lie on the line `v = t`, so every segment's
robust fit is the exact solution `(a, b) = (0, 1)`. -/
def ctC4 : List ℚ := [0, 1, 2, 100, 101, 102]

/-- A stream with five samples (all timestamps 1) and the clock offsets of
`ctC4`, used to exercise the multi-segment clock correction. -/
def resetStream : StreamState :=
  ⟨1, 0, .double64, [1, 1, 1, 1, 1], .num [[0], [0], [0], [0], [0]], ctC4, ctC4⟩

/-- Winsor-scaled design matrix of the first clock segment `(0, 3)` of
`resetStream`: rows `(1/w, t/w)` for `t ∈ [0, 1, 2, 100]`, `w = 1/10000`. -/
def rowsSeg1 : List (ℚ × ℚ) := [(10000, 0), (10000, 10000), (10000, 20000), (10000, 1000000)]

/-- Winsor-scaled target of the first clock segment `(0, 3)`. -/
def ySeg1 : List ℚ := [0, 10000, 20000, 1000000]

/-- Winsor-scaled design matrix of the second clock segment `(2, 4)`:
rows for `t ∈ [2, 100, 101]`. -/
def rowsSeg2 : List (ℚ × ℚ) := [(10000, 20000), (10000, 1000000), (10000, 1010000)]

/-- Winsor-scaled target of the second clock segment `(2, 4)`. -/
def ySeg2 : List ℚ := [20000, 1000000, 1010000]

/-- A file of `2^20 + 8` bytes that is zero everywhere except for one
occurrence of the 16-byte boundary sentinel starting at offset `2^20 - 8`,
which therefore straddles the boundary between the scanner's first and second
read blocks. -/
def straddleFile : ℕ → ℕ := fun i =>
  if 2 ^ 20 - 8 ≤ i ∧ i < 2 ^ 20 + 8 then boundarySig.getD (i - (2 ^ 20 - 8)) 0 else 0

def straddleLen : ℕ := 2 ^ 20 + 8

/-- The full 16-byte sentinel occurs in `file` starting at offset `p`. -/
def occursAt (file : ℕ → ℕ) (p : ℕ) : Prop :=
  ∀ j, j < 16 → file (p + j) = boundarySig.getD j 0

/-! # Shared helper lemmas -/

/-- The timestamps deduced from a run of `n` samples without explicit
timestamps are `last + k·tdiff` for `k = 1..n`. -/
theorem decodeStamps_replicate_none (n : ℕ) : ∀ last tdiff : ℚ,
    decodeStamps last tdiff (List.replicate n none) =
      (List.range n).map (fun k : ℕ => last + ((k : ℚ) + 1) * tdiff) := by
  induction n with
  | zero => intro last tdiff; simp [decodeStamps]
  | succ n ih =>
    intro last tdiff
    rw [List.replicate_succ, List.range_succ_eq_map]
    simp only [decodeStamps, ih, List.map_cons, List.map_map, List.cons.injEq]
    constructor
    · push_cast; ring
    · apply List.map_congr_left
      intro k _
      simp only [Function.comp_apply]
      push_cast
      ring

/-- The robust fit on the first clock segment of `resetStream`.  Because the
data are exactly affine (`y = A·(0,1)`), the first ADMM iteration lands on the
exact solution with `d = z = u = 0`, a fixed point of the iteration, so all
1000 iterations return `(0, 1)`. -/
theorem robustFit_seg1 : robustFit rowsSeg1 ySeg1 1 1000 = .ok (0, 1) := by
  have e11 : sumL (rowsSeg1.map (fun r => r.1 * r.1)) = 400000000 := by with_unfolding_all rfl
  have e12 : sumL (rowsSeg1.map (fun r => r.1 * r.2)) = 10300000000 := by with_unfolding_all rfl
  have e22 : sumL (rowsSeg1.map (fun r => r.2 * r.2)) = 1000500000000 := by
    with_unfolding_all rfl
  have eaty : dotCols rowsSeg1 ySeg1 = (10300000000, 1000500000000) := by with_unfolding_all rfl
  have elen : ySeg1.length = 4 := rfl
  have h1 : admmStep rowsSeg1 ySeg1 1 400000000 10300000000 1000500000000
      (10300000000, 1000500000000) ⟨(0, 0), List.replicate 4 0, List.replicate 4 0⟩ =
      ⟨(0, 1), List.replicate 4 0, List.replicate 4 0⟩ := by with_unfolding_all rfl
  have h2 : admmStep rowsSeg1 ySeg1 1 400000000 10300000000 1000500000000
      (10300000000, 1000500000000) ⟨(0, 1), List.replicate 4 0, List.replicate 4 0⟩ =
      ⟨(0, 1), List.replicate 4 0, List.replicate 4 0⟩ := by with_unfolding_all rfl
  simp only [robustFit, e11, e12, e22, eaty, elen]
  rw [if_pos (by norm_num)]
  rw [show (1000 : ℕ) = 999 + 1 from rfl, Function.iterate_succ_apply, h1,
    Function.iterate_fixed h2]

/-- The robust fit on the second clock segment of `resetStream`, again the
exact affine solution `(0, 1)`. -/
theorem robustFit_seg2 : robustFit rowsSeg2 ySeg2 1 1000 = .ok (0, 1) := by
  have e11 : sumL (rowsSeg2.map (fun r => r.1 * r.1)) = 300000000 := by with_unfolding_all rfl
  have e12 : sumL (rowsSeg2.map (fun r => r.1 * r.2)) = 20300000000 := by with_unfolding_all rfl
  have e22 : sumL (rowsSeg2.map (fun r => r.2 * r.2)) = 2020500000000 := by
    with_unfolding_all rfl
  have eaty : dotCols rowsSeg2 ySeg2 = (20300000000, 2020500000000) := by with_unfolding_all rfl
  have elen : ySeg2.length = 3 := rfl
  have h1 : admmStep rowsSeg2 ySeg2 1 300000000 20300000000 2020500000000
      (20300000000, 2020500000000) ⟨(0, 0), List.replicate 3 0, List.replicate 3 0⟩ =
      ⟨(0, 1), List.replicate 3 0, List.replicate 3 0⟩ := by with_unfolding_all rfl
  have h2 : admmStep rowsSeg2 ySeg2 1 300000000 20300000000 2020500000000
      (20300000000, 2020500000000) ⟨(0, 1), List.replicate 3 0, List.replicate 3 0⟩ =
      ⟨(0, 1), List.replicate 3 0, List.replicate 3 0⟩ := by with_unfolding_all rfl
  simp only [robustFit, e11, e12, e22, eaty, elen]
  rw [if_pos (by norm_num)]
  rw [show (1000 : ℕ) = 999 + 1 from rfl, Function.iterate_succ_apply, h1,
    Function.iterate_fixed h2]

/-- Coefficient of the first clock segment of `resetStream`. -/
theorem segCoef_first : segCoef ctC4 ctC4 (1 / 10000) (0, 3) = .ok (0, 1) := by
  have hA : buildA ctC4 (1 / 10000) (0, 3) = rowsSeg1 := by with_unfolding_all rfl
  have hY : buildY ctC4 (1 / 10000) (0, 3) = ySeg1 := by with_unfolding_all rfl
  rw [segCoef, if_pos (by norm_num), hA, hY, robustFit_seg1]

/-- Coefficient of the second clock segment of `resetStream`. -/
theorem segCoef_second : segCoef ctC4 ctC4 (1 / 10000) (2, 4) = .ok (0, 1) := by
  have hA : buildA ctC4 (1 / 10000) (2, 4) = rowsSeg2 := by with_unfolding_all rfl
  have hY : buildY ctC4 (1 / 10000) (2, 4) = ySeg2 := by with_unfolding_all rfl
  rw [segCoef, if_pos (by norm_num), hA, hY, robustFit_seg2]

/-- The sentinel occurrence of `straddleFile` at offset `2^20 - 8`. -/
theorem straddleFile_occurs : occursAt straddleFile (2 ^ 20 - 8) := by
  intro j hj
  have hpow : (2 : ℕ) ^ 20 = 1048576 := by norm_num
  have hidx : 2 ^ 20 - 8 + j - (2 ^ 20 - 8) = j := by omega
  unfold straddleFile
  split
  · rw [hidx]
  · rename_i hcon
    exfalso
    apply hcon
    refine ⟨Nat.le_add_right _ _, by omega⟩

/-- The scanner's first block of `straddleFile` contains no full sentinel:
every in-block candidate offset `o ≤ 2^20 - 16` starts at a zero byte, which
differs from the first sentinel byte `0x43`. -/
theorem blockFind_straddle_first : blockFind straddleFile 0 blocklen = none := by
  rw [blockFind, List.find?_eq_none]
  intro o ho
  rw [List.mem_range] at ho
  have hpow : (2 : ℕ) ^ 20 = 1048576 := by norm_num
  have hob : o < 2 ^ 20 - 15 := by simpa [blocklen] using ho
  intro hall
  rw [matchesAt, List.all_eq_true] at hall
  have h0 := hall 0 (by simp)
  rw [decide_eq_true_eq] at h0
  have hz : straddleFile (0 + o + 0) = 0 := by
    unfold straddleFile
    split
    · rename_i hcon
      exfalso
      omega
    · rfl
  rw [hz] at h0
  norm_num [boundarySig] at h0

/-! # The claims -/

/-- C1: the claim asserts `len(time_stamps) = rows(time_series)` for every
stream finalized by `load_xdf`, in particular after jitter removal on a
stream whose timestamps contain data breaks (more than one segment).  On the
code this fails: for `breakStream` the break at diff index 1 produces the two
overlapping multi-point segments `(0, 2)` and `(1, 3)`; processing the first
segment rebinds `num_samples` and `effective_srate` to ndarrays and replaces
the whole timestamp vector by the three fitted values, and processing the
second segment then raises `AttributeError` on `num_samples.append`, so
`load_xdf` aborts instead of finalizing any stream. -/
theorem claim1_jitter_break_crashes :
    segmentRanges breakStream.time_stamps.length
        (breakIndices (diffsOf breakStream.time_stamps)
          (max 1 (500 * tdiffOf breakStream.srate))) = [(0, 2), (1, 3)] ∧
    breakStream.time_series.rowCount = breakStream.time_stamps.length ∧
    jitterRemovalStream 1 500 breakStream =
      .error "AttributeError: ndarray object has no attribute append" := by
  refine ⟨by with_unfolding_all rfl, by with_unfolding_all rfl, by with_unfolding_all rfl⟩

/-- C2: the claim asserts that `effective_srate` is the sample-weighted mean
`Σ rᵢ·nᵢ / Σ nᵢ`, reducing to the single segment's rate `r₁` when only one
segment exists.  On the code this fails: for `singleSegmentStream` (one
segment, `n = 3`, `duration = 1`, so `r₁ = 3`) line 543 computes
`np.sum(effective_srate/num_samples/np.sum(num_samples)) = r₁/n₁² = 1/3`,
not `3`. -/
theorem claim2_effective_srate_formula :
    jitterRemovalStream 1 500 singleSegmentStream = .ok ([0, 1/2, 1], some (1/3)) ∧
    (singleSegmentStream.time_stamps.length : ℚ) /
      (singleSegmentStream.time_stamps.getLastD 0 - singleSegmentStream.time_stamps.getD 0 0)
      = 3 ∧
    (1/3 : ℚ) ≠ 3 := by
  refine ⟨by with_unfolding_all rfl, by with_unfolding_all rfl, by norm_num⟩

/-- C3: the claim asserts that `_clock_sync` completes without error and
leaves `time_stamps` unchanged on a stream with at least one sample and no
clock-offset pairs.  On the code this fails: with empty `clock_times` the
range list is `[(0, -1)]`, whose endpoints differ, so a robust fit is
attempted on an empty design matrix and `np.linalg.cholesky` of the zero
matrix `AᵀA` raises `LinAlgError` (with either setting of
`handle_clock_resets`), aborting `load_xdf`. -/
theorem claim3_empty_clock_offsets_crash :
    noOffsetsStream.clock_times = [] ∧
    0 < noOffsetsStream.time_stamps.length ∧
    clockSyncStream true 5 5 10 1 (1/10000) noOffsetsStream =
      .error "LinAlgError: Matrix is not positive definite" ∧
    clockSyncStream false 5 5 10 1 (1/10000) noOffsetsStream =
      .error "LinAlgError: Matrix is not positive definite" := by
  refine ⟨rfl, by norm_num [noOffsetsStream], by with_unfolding_all rfl,
    by with_unfolding_all rfl⟩

/-- C4: the claim asserts that with more than one clock segment each
segment's fitted `(a, b)` is applied to the **inclusive** range
`[begin, end]` of sample timestamps, leaving no index uncorrected.  On the
code this fails: for `resetStream` the reset yields ranges `[(0,3), (2,4)]`
with both coefficients `(0, 1)`, and the half-open slice application
(lines 502-504) produces `[2, 2, 4, 2, 1]` — index 4, the final index of
segment `(2, 4)`, keeps its original value 1 — whereas the inclusive
application prescribed by the claim produces `[2, 2, 4, 4, 2]`. -/
theorem claim4_half_open_clock_correction :
    clockRanges true ctC4 ctC4 5 5 10 1 = [(0, 3), (2, 4)] ∧
    clockSyncStream true 5 5 10 1 (1 / 10000) resetStream = .ok [2, 2, 4, 2, 1] ∧
    applyCoefsSpec [(0, 1), (0, 1)] [(0, 3), (2, 4)] resetStream.time_stamps =
      [2, 2, 4, 4, 2] ∧
    ([2, 2, 4, 2, 1] : List ℚ).getD 4 0 = resetStream.time_stamps.getD 4 0 := by
  have hranges : clockRanges true ctC4 ctC4 5 5 10 1 = [(0, 3), (2, 4)] := by
    with_unfolding_all rfl
  have hcoefs : segCoefs ctC4 ctC4 (1 / 10000) [(0, 3), (2, 4)] = .ok [(0, 1), (0, 1)] := by
    simp only [segCoefs, segCoef_first, segCoef_second]
  refine ⟨hranges, ?_, by with_unfolding_all rfl, by with_unfolding_all rfl⟩
  simp only [clockSyncStream, resetStream]
  rw [if_pos (by norm_num)]
  rw [hranges, hcoefs]
  simp only [List.length_cons, List.length_nil]
  rw [if_neg (by norm_num)]
  with_unfolding_all rfl

/-- C5: a sample with `has_stamp = 0` receives `last_timestamp + tdiff` and
updates `last_timestamp`, so a run of `n` unstamped samples after an explicit
base decodes to `base + k·tdiff` for `k = 1..n`; concretely, 5 samples with
only the first stamped at `t = 10.0` and `tdiff = 0.01` decode to exactly
`[10.00, 10.01, 10.02, 10.03, 10.04]`.  Confirmed. -/
theorem claim5_delta_decoding :
    (∀ (last tdiff base : ℚ) (n : ℕ),
      decodeStamps last tdiff (some base :: List.replicate n none) =
        base :: (List.range n).map (fun k : ℕ => base + ((k : ℚ) + 1) * tdiff)) ∧
    decodeStamps 0 (1 / 100) [some 10, none, none, none, none] =
      [10, 1001 / 100, 1002 / 100, 1003 / 100, 1004 / 100] := by
  constructor
  · intro last tdiff base n
    rw [decodeStamps, decodeStamps_replicate_none]
  · with_unfolding_all rfl

/-- C6: the claim asserts `effective_srate > 0` iff the stream has at least
two samples, a positive nominal rate and jitter removal ran, and that in
every other case — including a regular stream with exactly one sample — the
stream is **assigned** `effective_srate = 0`.  On the code the one-sample
regular case fails: `_jitter_removal` enters the `nsamples > 0 and srate > 0`
branch, the only segment `(0, 0)` is skipped, and `effective_srate` is never
assigned (modelled as `none`), so reading the attribute at line 372 raises
`AttributeError` instead of yielding 0. -/
theorem claim6_single_sample_effective_srate :
    0 < oneSampleStream.srate ∧
    oneSampleStream.time_stamps.length = 1 ∧
    jitterRemovalStream 1 500 oneSampleStream = .ok ([5], none) ∧
    getEffectiveSrate none =
      .error "AttributeError: StreamData object has no attribute effective_srate" := by
  refine ⟨by norm_num [oneSampleStream], rfl, by with_unfolding_all rfl, rfl⟩

/-- C7: the claim asserts that a stream with a header but no Samples chunks
finalizes without error under both `dejitter_timestamps` settings, with empty
timestamps and an empty container of **zero rows and `nchns` columns** for
numeric formats.  On the code this fails twice: line 345 builds
`np.zeros((stream.nchns, 0))`, a container with `nchns` rows (2 here) and 0
columns — so `rows(time_series) = 2 ≠ 0 = len(time_stamps)` — and with
`dejitter_timestamps=False` line 366 indexes `time_stamps[-1]` on the empty
vector, raising `IndexError`. -/
theorem claim7_empty_stream_finalization :
    finalizeStream emptyStreamChunks = ([], .num [[], []]) ∧
    (finalizeStream emptyStreamChunks).1.length = 0 ∧
    (finalizeStream emptyStreamChunks).2.rowCount = emptyStreamChunks.nchns ∧
    (finalizeStream emptyStreamChunks).2.rowCount ≠ 0 ∧
    naiveEffectiveSrate (finalizeStream emptyStreamChunks).1 =
      .error "IndexError: index -1 is out of bounds for axis 0 with size 0" := by
  refine ⟨rfl, rfl, rfl, ne_of_eq_of_ne (show _ = 2 from rfl) (by norm_num), rfl⟩

set_option maxHeartbeats 1000000 in
/-- C8: the claim asserts the boundary scanner finds every sentinel
occurrence after the current position, including occurrences straddling a
block boundary of the fixed-size reads.  On the code this fails: the scanner
reads disjoint `2^20`-byte blocks with no overlap, so in `straddleFile` —
where the full sentinel occurs at offset `2^20 - 8`, straddling the first
block boundary — neither block contains the whole sentinel and the scan
reaches end of file reporting no match. -/
theorem claim8_boundary_scan_straddle :
    occursAt straddleFile (2 ^ 20 - 8) ∧
    2 ^ 20 - 8 + 16 ≤ straddleLen ∧
    scanForward straddleFile straddleLen 0 = (straddleLen, false) := by
  refine ⟨straddleFile_occurs, by norm_num [straddleLen], ?_⟩
  rw [scanForward]
  have hmin : min blocklen (straddleLen - 0) = blocklen := by
    norm_num [blocklen, straddleLen]
  rw [hmin, blockFind_straddle_first]
  rw [if_neg (lt_irrefl blocklen)]
  rw [scanForward]
  have hmin2 : min blocklen (straddleLen - (0 + blocklen)) = 8 := by
    norm_num [blocklen, straddleLen]
  rw [hmin2]
  have bf2 : blockFind straddleFile (0 + blocklen) 8 = none := by
    rw [blockFind]
    norm_num
  rw [bf2]
  rw [if_pos (by norm_num [blocklen])]
  norm_num [blocklen, straddleLen]

/-- C9 counterexample: the claim asserts `_read_varlen_int` raises an error
**iff** its length byte is not in `{1, 4, 8}`; but on the one-byte stream
`[4]` the length byte is 4 — in the permitted set — and the reader still
fails, because `struct.unpack('<I', ...)` receives 0 of the 4 requested
bytes. -/
theorem claim9_counterexample :
    varlenOk [4] = false ∧
    (([4] : List ℕ).headD 0 = 1 ∨ ([4] : List ℕ).headD 0 = 4 ∨ ([4] : List ℕ).headD 0 = 8) := by
  exact ⟨rfl, Or.inr (Or.inl rfl)⟩

/-- C9 (amended): `_read_varlen_int` succeeds iff the stream starts with a
length byte in `{1, 4, 8}` followed by at least that many bytes — it errors
on an empty stream, on a length byte outside `{1, 4, 8}`, and on a truncated
stream — and on success it returns the unsigned little-endian integer of the
following 1, 4 or 8 bytes. -/
theorem claim9_varlen_amended (bs : List ℕ) :
    (varlenOk bs = true ↔
      ∃ n rest, bs = n :: rest ∧ (n = 1 ∨ n = 4 ∨ n = 8) ∧ n ≤ rest.length) ∧
    (∀ n rest, bs = n :: rest → (n = 1 ∨ n = 4 ∨ n = 8) → n ≤ rest.length →
      readVarlenInt bs = .ok (bytesToNatLE (rest.take n), rest.drop n)) := by
  cases bs with
  | nil =>
    refine ⟨by simp [varlenOk, readVarlenInt], fun n rest h => absurd h (by simp)⟩
  | cons n rest =>
    have hread : ∀ m, (m = 1 ∨ m = 4 ∨ m = 8) → m ≤ rest.length → n = m →
        readVarlenInt (n :: rest) = .ok (bytesToNatLE (rest.take m), rest.drop m) := by
      intro m hm hlen hnm
      subst hnm
      rcases hm with h | h | h <;> subst h <;>
        simp only [readVarlenInt] <;> norm_num [hlen]
    refine ⟨?_, fun m r hcons hm hlen => ?_⟩
    · constructor
      · intro hok
        refine ⟨n, rest, rfl, ?_⟩
        by_contra hcon
        push_neg at hcon
        simp only [varlenOk, readVarlenInt] at hok
        by_cases h1 : n = 1
        · subst h1
          have hlt := hcon (Or.inl rfl)
          have : ¬ 1 ≤ rest.length := by omega
          simp [this] at hok
        · by_cases h4 : n = 4
          · subst h4
            have hlt := hcon (Or.inr (Or.inl rfl))
            have : ¬ 4 ≤ rest.length := by omega
            simp [h1, this] at hok
          · by_cases h8 : n = 8
            · subst h8
              have hlt := hcon (Or.inr (Or.inr rfl))
              have : ¬ 8 ≤ rest.length := by omega
              simp [h1, h4, this] at hok
            · simp [h1, h4, h8] at hok
      · rintro ⟨m, r, hcons, hm, hlen⟩
        obtain ⟨rfl, rfl⟩ : n = m ∧ rest = r := by
          injection hcons with a b; exact ⟨a, b⟩
        rw [varlenOk, hread n hm hlen rfl]
    · obtain ⟨rfl, rfl⟩ : n = m ∧ rest = r := by
        injection hcons with a b; exact ⟨a, b⟩
      exact hread n hm hlen rfl

/-- C9 witness: the amended theorem at the concrete stream
`[4, 1, 0, 0, 0, 99]` — length byte 4, little-endian payload 1, trailing
byte 99 left in the stream. -/
theorem claim9_varlen_amended_witness :
    readVarlenInt [4, 1, 0, 0, 0, 99] =
      .ok (bytesToNatLE ([1, 0, 0, 0, 99].take 4), [1, 0, 0, 0, 99].drop 4) :=
  (claim9_varlen_amended [4, 1, 0, 0, 0, 99]).2 4 [1, 0, 0, 0, 99] rfl
    (Or.inr (Or.inl rfl)) (by norm_num)

/-- C10: error recovery is asymmetric across chunk tags — a Samples chunk
(tag 3) whose stream id has no preceding StreamHeader is handled inside a
`try`/`except`, so the decoder scans to the next boundary and continues,
while a ClockOffset chunk (tag 4) with an unknown stream id raises an
uncaught `KeyError` that aborts `load_xdf` with no data returned.
Confirmed. -/
theorem claim10_error_recovery_asymmetry (temp : List (ℕ × DecodeBuf)) (sid : ℕ)
    (payload : List (Option ℚ × List ℚ)) (t v : ℚ) (rest : List Chunk)
    (h : lookupBuf temp sid = none) :
    processChunks temp (Chunk.samples sid payload :: rest) =
      processChunks temp (scanToBoundary rest) ∧
    processChunks temp (Chunk.clockOffset sid t v :: rest) = .error "KeyError" := by
  exact ⟨by rw [processChunks, h], by rw [processChunks, h]⟩

/-- C10 witness: with no stream headers seen, a lone Samples chunk for
stream 7 is recovered (the decode finishes and returns the accumulated,
empty, state), while a lone ClockOffset chunk for stream 7 aborts the
decode. -/
theorem claim10_error_recovery_asymmetry_witness :
    processChunks [] [Chunk.samples 7 [(some 1, [2])]] = .ok [] ∧
    processChunks [] [Chunk.clockOffset 7 1 2] = .error "KeyError" := by
  have h := claim10_error_recovery_asymmetry [] 7 [(some 1, [2])] 1 2 [] rfl
  refine ⟨?_, h.2⟩
  rw [h.1]
  simp [processChunks, scanToBoundary]

end Xdf
